import Mathlib

/-!
Shallow embedding of the browser-side API client in
`src/frontend/src/controllers/API/index.ts` (langflow).

Each exported async function of the source file that the verified claims
touch is translated to a Lean function. The shared HTTP client `api`
(an axios instance, an external collaborator) is modelled as a function
from a request to either a raised error or a response; a JavaScript
async function that can reject is modelled with `Except`, and a function
that can resolve with `undefined` is modelled with `Option` in the
success channel. Each operation returns the list of transport requests
it issues together with its outcome, so that claims about which requests
are made (their number, method, URL and body) are statable.
-/

namespace LangflowAPI

/-- A JSON-like value: the decoded request/response bodies that the
client passes through. -/
inductive JValue where
  | null : JValue
  | str : String → JValue
  | num : Int → JValue
  | bool : Bool → JValue
  | arr : List JValue → JValue
  | obj : List (String × JValue) → JValue

/-- A raised JavaScript error, identified by its message
(the only part of the error object the source ever constructs or that
the spec observes). -/
structure JSError where
  message : String
deriving DecidableEq, Repr

/-- An HTTP request as handed to the transport: method, URL, body
(`JValue.null` when the call passes no body) and extra headers. -/
structure Request where
  method : String
  url : String
  body : JValue
  headers : List (String × String)

/-- An HTTP response as delivered by the transport: status code and
decoded body. -/
structure Response where
  status : Nat
  data : JValue

/-- The shared HTTP client (axios instance `api`): for every request it
either raises an error (rejected promise: network failure, decoding
failure, or an interceptor raising) or returns a response. -/
def Transport : Type := Request → Except JSError Response

/-- Modelled from the spec: the versioned base path constant
`BASE_URL_API` imported from the constants module, which is not under
`src/`; the spec describes it as the backend base path plus versioned
prefix. No claim depends on its concrete value. -/
def BASE_URL_API : String := "/api/v1/"

def GITHUB_API_URL : String := "https://api.github.com"

/-- Property lookup `v[k]` on a decoded value, as an option:
`none` models JavaScript `undefined` (missing property or property
access on a non-object primitive that lacks it). -/
def jsField : JValue → String → Option JValue
  | .obj fields, k => fields.lookup k
  | _, _ => none

/-- The error a property access on `null` raises. -/
def typeErrorJS : JSError := ⟨"TypeError"⟩

/-- JavaScript property access `v.k`: raises a TypeError when `v` is
`null`, otherwise yields the property (or `undefined`). -/
def propAccess : JValue → String → Except JSError (Option JValue)
  | .null, _ => .error typeErrorJS
  | .obj fields, k => .ok (fields.lookup k)
  | _, _ => .ok none

/-- JavaScript string coercion of a possibly-undefined value, used where
the source interpolates or passes a value where a string is expected. -/
def jsToDisplayString : JValue → String
  | .null => "null"
  | .str s => s
  | .num n => toString n
  | .bool b => toString b
  | .arr _ => ""
  | .obj _ => "[object Object]"

/-- String coercion with `undefined` (as in axios URL handling /
template interpolation of a possibly missing field). -/
def jsStringCoerce : Option JValue → String
  | none => "undefined"
  | some v => jsToDisplayString v

/-- The message of the `Error` a JavaScript `new Error(x)` constructs
from a possibly-undefined argument. -/
def jsErrMessage : Option JValue → String
  | none => ""
  | some v => jsToDisplayString v

/-- The error thrown on a status mismatch:
`new Error(\x7bHTTP error! status: ...\x7d)` with the observed code
interpolated. -/
def httpStatusError (s : Nat) : JSError :=
  ⟨"HTTP error! status: " ++ toString s⟩

/-- Substring containment on strings, used to state that an error
message carries the observed status code. -/
def strContains (s sub : String) : Prop :=
  ∃ pre post, s = pre ++ sub ++ post

/-! ## getRepoStars -/

def repoStarsReq (owner repo : String) : Request :=
  ⟨"get", GITHUB_API_URL ++ "/repos/" ++ owner ++ "/" ++ repo, .null, []⟩

/-- `getRepoStars`: fetches the repository object and returns its
`stargazers_count` property; any error raised inside the `try`
(transport failure or the property access throwing) is caught and the
function returns `null`. The result is `some JValue.null` for the
caught-error branch, `none` for resolving with `undefined`, and
`some v` for a present count `v`. -/
def getRepoStars (t : Transport) (owner repo : String) :
    List Request × Option JValue :=
  match t (repoStarsReq owner repo) with
  | .error _ => ([repoStarsReq owner repo], some .null)
  | .ok response =>
    match propAccess response.data "stargazers_count" with
    | .error _ => ([repoStarsReq owner repo], some .null)
    | .ok v => ([repoStarsReq owner repo], v)

/-! ## getExamples -/

def examplesURL : String :=
  "https://api.github.com/repos/logspace-ai/langflow_examples/contents/examples?ref=main"

def exListReq : Request := ⟨"get", examplesURL, .null, []⟩

/-- The follow-up request `api.get(file.download_url)` for one listing
entry. -/
def dlReq (f : JValue) : Request :=
  ⟨"get", jsStringCoerce (jsField f "download_url"), .null, []⟩

/-- JavaScript `s.endsWith(suffix)`, modelled on the character list of
the string. -/
def jsEndsWith (s suffix : String) : Bool :=
  suffix.data.isSuffixOf s.data

/-- The filter predicate of the source:
`file.name.endsWith(".json")` on entries whose `name` is a string. -/
def nameEndsJson (f : JValue) : Bool :=
  match jsField f "name" with
  | some (.str s) => jsEndsWith s ".json"
  | _ => false

/-- `response.data.filter(file => file.name.endsWith(".json"))`:
keeps the entries with a `.json` name; an entry whose `name` is not a
string makes the callback raise a TypeError (calling `endsWith` on a
non-string). -/
def filterJsonFiles : List JValue → Except JSError (List JValue)
  | [] => .ok []
  | f :: rest =>
    match jsField f "name" with
    | some (.str s) =>
      match filterJsonFiles rest with
      | .ok fs => .ok (if jsEndsWith s ".json" then f :: fs else fs)
      | .error e => .error e
    | _ => .error typeErrorJS

/-- `Promise.all` over the already-issued follow-up requests: resolves
with the list of response bodies in input order, rejects if any request
rejected. -/
def collectAll : List (Except JSError Response) → Except JSError (List JValue)
  | [] => .ok []
  | .error e :: _ => .error e
  | .ok r :: rest =>
    match collectAll rest with
    | .ok ds => .ok (r.data :: ds)
    | .error e => .error e

/-- `getExamples`: lists the examples directory, filters entries whose
name ends in `.json`, fetches each filtered entry's `download_url`
concurrently (all follow-up requests are started by the `map` before
`Promise.all` is awaited) and returns the bodies in listing order.
A non-array listing body makes the `.filter` call raise a TypeError. -/
def getExamples (t : Transport) :
    List Request × Except JSError (List JValue) :=
  match t exListReq with
  | .error e => ([exListReq], .error e)
  | .ok response =>
    match response.data with
    | .arr files =>
      match filterJsonFiles files with
      | .error e => ([exListReq], .error e)
      | .ok jsonFiles =>
        (exListReq :: jsonFiles.map dlReq,
          collectAll ((jsonFiles.map dlReq).map t))
    | _ => ([exListReq], .error typeErrorJS)

/-! ## Flow CRUD -/

/-- The flow shape the flow operations take: `FlowType` and the inline
parameter type of `saveFlowToDatabase` (name, id, data, description,
optional style). -/
structure Flow where
  name : String
  id : String
  data : JValue
  description : String
  style : Option JValue

def saveFlowReq (newFlow : Flow) : Request :=
  ⟨"post", BASE_URL_API ++ "flows/",
    .obj [("name", .str newFlow.name), ("data", newFlow.data),
          ("description", .str newFlow.description)], []⟩

/-- `saveFlowToDatabase`: POST `flows/` with only name, data and
description; expects 201, otherwise throws the status error; the catch
logs and rethrows unchanged. -/
def saveFlowToDatabase (t : Transport) (newFlow : Flow) :
    List Request × Except JSError JValue :=
  match t (saveFlowReq newFlow) with
  | .error e => ([saveFlowReq newFlow], .error e)
  | .ok response =>
    if response.status ≠ 201 then
      ([saveFlowReq newFlow], .error (httpStatusError response.status))
    else
      ([saveFlowReq newFlow], .ok response.data)

def updateFlowReq (updatedFlow : Flow) : Request :=
  ⟨"patch", BASE_URL_API ++ "flows/" ++ updatedFlow.id,
    .obj [("name", .str updatedFlow.name), ("data", updatedFlow.data),
          ("description", .str updatedFlow.description)], []⟩

/-- `updateFlowInDatabase`: PATCH `flows/{id}`; expects 200. -/
def updateFlowInDatabase (t : Transport) (updatedFlow : Flow) :
    List Request × Except JSError JValue :=
  match t (updateFlowReq updatedFlow) with
  | .error e => ([updateFlowReq updatedFlow], .error e)
  | .ok response =>
    if response.status ≠ 200 then
      ([updateFlowReq updatedFlow], .error (httpStatusError response.status))
    else
      ([updateFlowReq updatedFlow], .ok response.data)

def uploadFlowsReq (flows : JValue) : Request :=
  ⟨"post", BASE_URL_API ++ "flows/upload/", flows, []⟩

/-- `uploadFlowsToDatabase`: POST `flows/upload/` with the multipart
container as body; expects 201. -/
def uploadFlowsToDatabase (t : Transport) (flows : JValue) :
    List Request × Except JSError JValue :=
  match t (uploadFlowsReq flows) with
  | .error e => ([uploadFlowsReq flows], .error e)
  | .ok response =>
    if response.status ≠ 201 then
      ([uploadFlowsReq flows], .error (httpStatusError response.status))
    else
      ([uploadFlowsReq flows], .ok response.data)

def deleteFlowReq (flowId : String) : Request :=
  ⟨"delete", BASE_URL_API ++ "flows/" ++ flowId, .null, []⟩

/-- `deleteFlowFromDatabase`: DELETE `flows/{id}`; expects 200. -/
def deleteFlowFromDatabase (t : Transport) (flowId : String) :
    List Request × Except JSError JValue :=
  match t (deleteFlowReq flowId) with
  | .error e => ([deleteFlowReq flowId], .error e)
  | .ok response =>
    if response.status ≠ 200 then
      ([deleteFlowReq flowId], .error (httpStatusError response.status))
    else
      ([deleteFlowReq flowId], .ok response.data)

def saveFlowStyleReq (flowStyle : JValue) : Request :=
  ⟨"post", BASE_URL_API ++ "flow_styles/", flowStyle,
    [("accept", "application/json"),
     ("Content-Type", "application/json")]⟩

/-- `saveFlowStyleToDatabase`: POST `flow_styles/` with explicit JSON
headers; expects 201. -/
def saveFlowStyleToDatabase (t : Transport) (flowStyle : JValue) :
    List Request × Except JSError JValue :=
  match t (saveFlowStyleReq flowStyle) with
  | .error e => ([saveFlowStyleReq flowStyle], .error e)
  | .ok response =>
    if response.status ≠ 201 then
      ([saveFlowStyleReq flowStyle], .error (httpStatusError response.status))
    else
      ([saveFlowStyleReq flowStyle], .ok response.data)

/-! ## Authentication -/

/-- The login credentials (`LoginType`). -/
structure LoginType where
  username : String
  password : String

/-- `new URLSearchParams(pairs).toString()`, as the source uses it to
form-encode the login body. -/
def urlSearchParamsToString (pairs : List (String × String)) : String :=
  String.intercalate "&" (pairs.map fun p => p.1 ++ "=" ++ p.2)

def loginReq (user : LoginType) : Request :=
  ⟨"post", BASE_URL_API ++ "login",
    .str (urlSearchParamsToString
      [("username", user.username), ("password", user.password)]),
    [("Content-Type", "application/x-www-form-urlencoded")]⟩

/-- `onLogin`: POST `login` with a form-urlencoded body; on status 200
returns the body, on any other status falls off the `if` and resolves
with `undefined`; a raised error is rethrown unchanged. -/
def onLogin (t : Transport) (user : LoginType) :
    List Request × Except JSError (Option JValue) :=
  match t (loginReq user) with
  | .error e => ([loginReq user], .error e)
  | .ok response =>
    if response.status = 200 then
      ([loginReq user], .ok (some response.data))
    else
      ([loginReq user], .ok none)

def autoLoginReq : Request := ⟨"get", BASE_URL_API ++ "auto_login", .null, []⟩

/-- `autoLogin`: GET `auto_login`; on status 200 returns the body,
otherwise resolves with `undefined`; a raised error is rethrown. -/
def autoLogin (t : Transport) :
    List Request × Except JSError (Option JValue) :=
  match t autoLoginReq with
  | .error e => ([autoLoginReq], .error e)
  | .ok response =>
    if response.status = 200 then
      ([autoLoginReq], .ok (some response.data))
    else
      ([autoLoginReq], .ok none)

def renewReq (token : String) : Request :=
  ⟨"post", BASE_URL_API ++ "refresh?token=" ++ token, .null, []⟩

/-- `renewAccessToken`: when the token is truthy (a non-empty string),
POSTs `refresh?token={token}` and returns the full response envelope;
when falsy, performs no request and resolves with `undefined`; a raised
error is logged and rethrown. -/
def renewAccessToken (t : Transport) (token : String) :
    List Request × Except JSError (Option Response) :=
  if token ≠ "" then
    match t (renewReq token) with
    | .error e => ([renewReq token], .error e)
    | .ok response => ([renewReq token], .ok (some response))
  else
    ([], .ok none)

/-! ## Users -/

def whoamiReq : Request := ⟨"get", BASE_URL_API ++ "users/whoami", .null, []⟩

/-- `getLoggedUser`: GET `users/whoami`; on 200 returns the body, on a
raised error rethrows, and on a non-200 response without an error falls
through to the trailing `return null`. -/
def getLoggedUser (t : Transport) :
    List Request × Except JSError JValue :=
  match t whoamiReq with
  | .error e => ([whoamiReq], .error e)
  | .ok res =>
    if res.status = 200 then
      ([whoamiReq], .ok res.data)
    else
      ([whoamiReq], .ok .null)

def addUserReq (user : JValue) : Request :=
  ⟨"post", BASE_URL_API ++ "users/", user, []⟩

/-- `addUser`: POST `users/` with the user payload; on a status other
than 201 throws `new Error(res.data.detail)` (the property access on a
`null` body itself raising a TypeError); otherwise returns the body.
The catch logs and rethrows unchanged. -/
def addUser (t : Transport) (user : JValue) :
    List Request × Except JSError JValue :=
  match t (addUserReq user) with
  | .error e => ([addUserReq user], .error e)
  | .ok res =>
    if res.status ≠ 201 then
      match propAccess res.data "detail" with
      | .error e => ([addUserReq user], .error e)
      | .ok d => ([addUserReq user], .error ⟨jsErrMessage d⟩)
    else
      ([addUserReq user], .ok res.data)

def usersPageReq (skip limit : Int) : Request :=
  ⟨"get", BASE_URL_API ++ "users/?skip=" ++ toString skip
    ++ "&limit=" ++ toString limit, .null, []⟩

/-- `getUsersPage`: GET `users/?skip&limit`; on 200 returns the body,
on a raised error rethrows, and otherwise falls through to the trailing
`return []`. -/
def getUsersPage (t : Transport) (skip limit : Int) :
    List Request × Except JSError JValue :=
  match t (usersPageReq skip limit) with
  | .error e => ([usersPageReq skip limit], .error e)
  | .ok res =>
    if res.status = 200 then
      ([usersPageReq skip limit], .ok res.data)
    else
      ([usersPageReq skip limit], .ok (.arr []))

def deleteUserReq (user_id : String) : Request :=
  ⟨"delete", BASE_URL_API ++ "users/" ++ user_id, .null, []⟩

/-- `deleteUser`: DELETE `users/{id}`; on 200 returns the body, on any
other status falls off the `if` and resolves with `undefined`; a raised
error is logged and rethrown. -/
def deleteUser (t : Transport) (user_id : String) :
    List Request × Except JSError (Option JValue) :=
  match t (deleteUserReq user_id) with
  | .error e => ([deleteUserReq user_id], .error e)
  | .ok res =>
    if res.status = 200 then
      ([deleteUserReq user_id], .ok (some res.data))
    else
      ([deleteUserReq user_id], .ok none)

def updateUserReq (user_id : String) (user : JValue) : Request :=
  ⟨"patch", BASE_URL_API ++ "users/" ++ user_id, user, []⟩

/-- `updateUser`: PATCH `users/{id}`; on 200 returns the body,
otherwise resolves with `undefined`; a raised error is rethrown. -/
def updateUser (t : Transport) (user_id : String) (user : JValue) :
    List Request × Except JSError (Option JValue) :=
  match t (updateUserReq user_id user) with
  | .error e => ([updateUserReq user_id user], .error e)
  | .ok res =>
    if res.status = 200 then
      ([updateUserReq user_id user], .ok (some res.data))
    else
      ([updateUserReq user_id user], .ok none)

def resetPasswordReq (user_id : String) (user : JValue) : Request :=
  ⟨"patch", BASE_URL_API ++ "users/" ++ user_id ++ "/reset-password", user, []⟩

/-- `resetPassword`: PATCH `users/{id}/reset-password`; on 200 returns
the body, otherwise resolves with `undefined`; a raised error is
rethrown. -/
def resetPassword (t : Transport) (user_id : String) (user : JValue) :
    List Request × Except JSError (Option JValue) :=
  match t (resetPasswordReq user_id user) with
  | .error e => ([resetPasswordReq user_id user], .error e)
  | .ok res =>
    if res.status = 200 then
      ([resetPasswordReq user_id user], .ok (some res.data))
    else
      ([resetPasswordReq user_id user], .ok none)

/-! ## API keys -/

def getApiKeyReq : Request := ⟨"get", BASE_URL_API ++ "api_key/", .null, []⟩

/-- `getApiKey`: GET `api_key/`; on 200 returns the body, otherwise
resolves with `undefined`; a raised error is rethrown. -/
def getApiKey (t : Transport) :
    List Request × Except JSError (Option JValue) :=
  match t getApiKeyReq with
  | .error e => ([getApiKeyReq], .error e)
  | .ok res =>
    if res.status = 200 then
      ([getApiKeyReq], .ok (some res.data))
    else
      ([getApiKeyReq], .ok none)

def createApiKeyReq (name : String) : Request :=
  ⟨"post", BASE_URL_API ++ "api_key/", .obj [("name", .str name)], []⟩

/-- `createApiKey`: POST `api_key/` with body containing only the
name; on 200 (not 201) returns the body, otherwise resolves with
`undefined`; a raised error is rethrown. -/
def createApiKey (t : Transport) (name : String) :
    List Request × Except JSError (Option JValue) :=
  match t (createApiKeyReq name) with
  | .error e => ([createApiKeyReq name], .error e)
  | .ok res =>
    if res.status = 200 then
      ([createApiKeyReq name], .ok (some res.data))
    else
      ([createApiKeyReq name], .ok none)

def deleteApiKeyReq (api_key : String) : Request :=
  ⟨"delete", BASE_URL_API ++ "api_key/" ++ api_key, .null, []⟩

/-- `deleteApiKey`: DELETE `api_key/{key}`; on 200 returns the body,
otherwise resolves with `undefined`; a raised error is rethrown. -/
def deleteApiKey (t : Transport) (api_key : String) :
    List Request × Except JSError (Option JValue) :=
  match t (deleteApiKeyReq api_key) with
  | .error e => ([deleteApiKeyReq api_key], .error e)
  | .ok res =>
    if res.status = 200 then
      ([deleteApiKeyReq api_key], .ok (some res.data))
    else
      ([deleteApiKeyReq api_key], .ok none)

/-- The transport that answers every request with the fixed response
`resp`, used to state per-operation status-code policies. -/
def constT (resp : Response) : Transport := fun _ => .ok resp

/-! ## Helper lemmas -/

lemma propAccess_of_jsField {v : JValue} {k : String} {x : JValue}
    (h : jsField v k = some x) : propAccess v k = .ok (some x) := by
  cases v <;> simp_all [jsField, propAccess]

lemma strContains_httpStatusError (n : Nat) :
    strContains (httpStatusError n).message (toString n) :=
  ⟨"HTTP error! status: ", "", by simp [httpStatusError]⟩

/-! ## Claim theorems -/

/-- C3: saveFlowToDatabase issues a single POST whose body carries only
the name, data and description fields of its input (id and style are
stripped); a 201 response returns its body verbatim; a 500 response
raises an error whose message contains "500". -/
theorem c3_saveFlowToDatabase (t : Transport) (fl : Flow) :
    (saveFlowToDatabase t fl).1 = [saveFlowReq fl]
    ∧ (saveFlowReq fl).body =
        JValue.obj [("name", .str fl.name), ("data", fl.data),
                    ("description", .str fl.description)]
    ∧ (∀ B, t (saveFlowReq fl) = .ok ⟨201, B⟩ →
        (saveFlowToDatabase t fl).2 = .ok B)
    ∧ (∀ b, t (saveFlowReq fl) = .ok ⟨500, b⟩ →
        (saveFlowToDatabase t fl).2 = .error (httpStatusError 500)
        ∧ strContains (httpStatusError 500).message "500") := by
  refine ⟨?_, rfl, ?_, ?_⟩
  · cases h : t (saveFlowReq fl) with
    | error e => simp [saveFlowToDatabase, h]
    | ok r =>
      simp only [saveFlowToDatabase, h]
      split <;> rfl
  · intro B h
    simp [saveFlowToDatabase, h]
  · intro b h
    refine ⟨by simp [saveFlowToDatabase, h], ?_⟩
    simpa using strContains_httpStatusError 500

def c3Flow : Flow := ⟨"f1", "ignored-locally", .obj [], "d", none⟩

def c3Body : JValue :=
  .obj [("id", .str "abc"), ("name", .str "f1"),
        ("data", .obj []), ("description", .str "d")]

/-- Witness for C3 at the concrete scenario of the spec. -/
theorem c3_saveFlowToDatabase_witness :
    (saveFlowToDatabase (constT ⟨201, c3Body⟩) c3Flow).2 = .ok c3Body :=
  (c3_saveFlowToDatabase (constT ⟨201, c3Body⟩) c3Flow).2.2.1 c3Body rfl

/-- C4: onLogin and autoLogin return the decoded body on a 200
response, and resolve with undefined (no value, no raised error) on any
other status. -/
theorem c4_onLogin_autoLogin (t : Transport) (user : LoginType)
    (respL respA : Response)
    (hL : t (loginReq user) = .ok respL)
    (hA : t autoLoginReq = .ok respA) :
    ((respL.status = 200 → (onLogin t user).2 = .ok (some respL.data))
      ∧ (respL.status ≠ 200 → (onLogin t user).2 = .ok none))
    ∧ ((respA.status = 200 → (autoLogin t).2 = .ok (some respA.data))
      ∧ (respA.status ≠ 200 → (autoLogin t).2 = .ok none)) := by
  refine ⟨⟨?_, ?_⟩, ?_, ?_⟩ <;> intro h <;>
    simp [onLogin, autoLogin, hL, hA, h]

/-- Witness for C4: a 200 login returns the body, a 404 auto-login
resolves with undefined. -/
theorem c4_onLogin_autoLogin_witness :
    (onLogin (constT ⟨200, .str "tok"⟩) ⟨"u", "p"⟩).2
      = .ok (some (.str "tok"))
    ∧ (autoLogin (constT ⟨404, .null⟩)).2 = .ok none :=
  ⟨(c4_onLogin_autoLogin (constT ⟨200, .str "tok"⟩) ⟨"u", "p"⟩
      ⟨200, .str "tok"⟩ ⟨200, .str "tok"⟩ rfl rfl).1.1 rfl,
   (c4_onLogin_autoLogin (constT ⟨404, .null⟩) ⟨"u", "p"⟩
      ⟨404, .null⟩ ⟨404, .null⟩ rfl rfl).2.2 (by decide)⟩

/-- C5: renewAccessToken with an empty (falsy) token performs no
request and resolves with undefined; with a non-empty token it issues
exactly one POST whose URL carries the token as the `token` query
parameter. -/
theorem c5_renewAccessToken (t : Transport) :
    ((renewAccessToken t "").1 = [] ∧ (renewAccessToken t "").2 = .ok none)
    ∧ (∀ token, token ≠ "" →
        (renewAccessToken t token).1 = [renewReq token]
        ∧ (renewReq token).method = "post"
        ∧ (renewReq token).url = BASE_URL_API ++ "refresh?token=" ++ token) := by
  refine ⟨⟨rfl, rfl⟩, ?_⟩
  intro token htok
  refine ⟨?_, rfl, rfl⟩
  cases h : t (renewReq token) <;> simp [renewAccessToken, htok, h]

/-- Witness for C5 at a concrete token and transport. -/
theorem c5_renewAccessToken_witness :
    (renewAccessToken (constT ⟨200, .null⟩) "abc").1 = [renewReq "abc"] :=
  ((c5_renewAccessToken (constT ⟨200, .null⟩)).2 "abc" (by decide)).1

/-- C6: addUser, on a 400 response whose body carries a string `detail`
field, raises an error whose message is exactly that detail string. -/
theorem c6_addUser (t : Transport) (user : JValue) (res : Response)
    (d : String)
    (h : t (addUserReq user) = .ok res)
    (hstatus : res.status = 400)
    (hdetail : jsField res.data "detail" = some (.str d)) :
    (addUser t user).2 = .error ⟨d⟩ := by
  have hp := propAccess_of_jsField hdetail
  simp [addUser, h, hstatus, hp, jsErrMessage, jsToDisplayString]

/-- Witness for C6 at the concrete scenario of the spec. -/
theorem c6_addUser_witness :
    (addUser (constT ⟨400, .obj [("detail", .str "username taken")]⟩)
      (.obj [])).2 = .error ⟨"username taken"⟩ :=
  c6_addUser (constT ⟨400, .obj [("detail", .str "username taken")]⟩)
    (.obj []) ⟨400, .obj [("detail", .str "username taken")]⟩
    "username taken" rfl rfl rfl

/-- C7: getLoggedUser returns the body on a 200 response, propagates a
raised transport error unchanged, and returns null on a non-200
response that raised no error. -/
theorem c7_getLoggedUser (t : Transport) :
    (∀ res, t whoamiReq = .ok res →
      (res.status = 200 → (getLoggedUser t).2 = .ok res.data)
      ∧ (res.status ≠ 200 → (getLoggedUser t).2 = .ok JValue.null))
    ∧ (∀ e, t whoamiReq = .error e → (getLoggedUser t).2 = .error e) := by
  constructor
  · intro res h
    constructor <;> intro hs <;> simp [getLoggedUser, h, hs]
  · intro e h
    simp [getLoggedUser, h]

/-- Witness for C7: a 403 response yields null. -/
theorem c7_getLoggedUser_witness :
    (getLoggedUser (constT ⟨403, .str "forbidden"⟩)).2 = .ok JValue.null :=
  ((c7_getLoggedUser (constT ⟨403, .str "forbidden"⟩)).1
    ⟨403, .str "forbidden"⟩ rfl).2 (by decide)

/-- C8: getUsersPage returns the decoded body on a 200 response and an
empty sequence on any non-200 response that raised no error. -/
theorem c8_getUsersPage (t : Transport) (skip limit : Int)
    (res : Response)
    (h : t (usersPageReq skip limit) = .ok res) :
    (res.status = 200 → (getUsersPage t skip limit).2 = .ok res.data)
    ∧ (res.status ≠ 200 → (getUsersPage t skip limit).2 = .ok (.arr [])) := by
  constructor <;> intro hs <;> simp [getUsersPage, h, hs]

/-- Witness for C8: a 500 response yields the empty sequence. -/
theorem c8_getUsersPage_witness :
    (getUsersPage (constT ⟨500, .null⟩) 0 10).2 = .ok (.arr []) :=
  (c8_getUsersPage (constT ⟨500, .null⟩) 0 10 ⟨500, .null⟩ rfl).2 (by decide)

/-- C9: getRepoStars returns null when the transport raises, and on a
successful response returns the stargazers_count field of the decoded
body. -/
theorem c9_getRepoStars (t : Transport) (owner repo : String) :
    (∀ e, t (repoStarsReq owner repo) = .error e →
      (getRepoStars t owner repo).2 = some JValue.null)
    ∧ (∀ res v, t (repoStarsReq owner repo) = .ok res →
        jsField res.data "stargazers_count" = some v →
        (getRepoStars t owner repo).2 = some v) := by
  constructor
  · intro e h
    simp [getRepoStars, h]
  · intro res v h hf
    simp [getRepoStars, h, propAccess_of_jsField hf]

/-- Witness for C9: a failing transport yields null, a successful
response yields the star count. -/
theorem c9_getRepoStars_witness :
    (getRepoStars (fun _ => .error ⟨"network down"⟩) "o" "r").2
      = some JValue.null
    ∧ (getRepoStars (constT ⟨200, .obj [("stargazers_count", .num 7)]⟩)
        "o" "r").2 = some (.num 7) :=
  ⟨(c9_getRepoStars (fun _ => .error ⟨"network down"⟩) "o" "r").1
      ⟨"network down"⟩ rfl,
   (c9_getRepoStars (constT ⟨200, .obj [("stargazers_count", .num 7)]⟩)
      "o" "r").2 ⟨200, .obj [("stargazers_count", .num 7)]⟩ (.num 7) rfl rfl⟩

/-- C10: deleteUser, updateUser, resetPassword, createApiKey,
deleteApiKey and getApiKey all resolve with undefined (no value, no
raised error) on a non-200 response. -/
theorem c10_non200_undefined (resp : Response) (hs : resp.status ≠ 200)
    (uid akey keyName : String) (user rp : JValue) :
    (deleteUser (constT resp) uid).2 = .ok none
    ∧ (updateUser (constT resp) uid user).2 = .ok none
    ∧ (resetPassword (constT resp) uid rp).2 = .ok none
    ∧ (createApiKey (constT resp) keyName).2 = .ok none
    ∧ (deleteApiKey (constT resp) akey).2 = .ok none
    ∧ (getApiKey (constT resp)).2 = .ok none := by
  refine ⟨?_, ?_, ?_, ?_, ?_, ?_⟩ <;>
    simp [deleteUser, updateUser, resetPassword, createApiKey,
          deleteApiKey, getApiKey, constT, hs]

/-- Witness for C10 at a 404 response. -/
theorem c10_non200_undefined_witness :
    (deleteUser (constT ⟨404, .null⟩) "u1").2 = .ok none
    ∧ (createApiKey (constT ⟨404, .null⟩) "k").2 = .ok none := by
  have h := c10_non200_undefined ⟨404, .null⟩ (by decide) "u1" "a" "k"
    .null .null
  exact ⟨h.1, h.2.2.2.1⟩

/-- C1 counterexample: deleteUser, one of the operations the claim
covers, does not raise on a non-200 response; at status 500 it resolves
with undefined, and in particular not with the status error the claim
requires. -/
theorem c1_counterexample :
    (deleteUser (constT ⟨500, JValue.null⟩) "u1").2 = .ok none
    ∧ (deleteUser (constT ⟨500, JValue.null⟩) "u1").2
        ≠ .error (httpStatusError 500) := by
  refine ⟨rfl, ?_⟩
  simp [deleteUser, constT]

/-- C1 amended: the flow mutations (create-flow 201, update-flow 200,
upload-flows 201, delete-flow 200, create-flow-style 201) return the
decoded body on the expected status and raise an error carrying the
observed status code otherwise; create-user (201) raises with the
backend-provided detail message instead; delete-user, update-user,
reset-password, create-api-key and delete-api-key (200) return the
body on the expected status and resolve with undefined, without
raising, on any other status. -/
theorem c1_status_code_policy (resp : Response) (fl : Flow)
    (flows flowStyle user payload rp : JValue)
    (flowId uid akey keyName : String) :
    ((resp.status = 201 →
        (saveFlowToDatabase (constT resp) fl).2 = .ok resp.data)
     ∧ (resp.status ≠ 201 →
        (saveFlowToDatabase (constT resp) fl).2
          = .error (httpStatusError resp.status)
        ∧ strContains (httpStatusError resp.status).message
            (toString resp.status)))
    ∧ ((resp.status = 200 →
        (updateFlowInDatabase (constT resp) fl).2 = .ok resp.data)
     ∧ (resp.status ≠ 200 →
        (updateFlowInDatabase (constT resp) fl).2
          = .error (httpStatusError resp.status)))
    ∧ ((resp.status = 201 →
        (uploadFlowsToDatabase (constT resp) flows).2 = .ok resp.data)
     ∧ (resp.status ≠ 201 →
        (uploadFlowsToDatabase (constT resp) flows).2
          = .error (httpStatusError resp.status)))
    ∧ ((resp.status = 200 →
        (deleteFlowFromDatabase (constT resp) flowId).2 = .ok resp.data)
     ∧ (resp.status ≠ 200 →
        (deleteFlowFromDatabase (constT resp) flowId).2
          = .error (httpStatusError resp.status)))
    ∧ ((resp.status = 201 →
        (saveFlowStyleToDatabase (constT resp) flowStyle).2 = .ok resp.data)
     ∧ (resp.status ≠ 201 →
        (saveFlowStyleToDatabase (constT resp) flowStyle).2
          = .error (httpStatusError resp.status)))
    ∧ ((resp.status = 201 →
        (addUser (constT resp) user).2 = .ok resp.data)
     ∧ (∀ d, resp.status ≠ 201 →
        jsField resp.data "detail" = some (.str d) →
        (addUser (constT resp) user).2 = .error ⟨d⟩))
    ∧ ((resp.status = 200 →
        (deleteUser (constT resp) uid).2 = .ok (some resp.data))
     ∧ (resp.status ≠ 200 → (deleteUser (constT resp) uid).2 = .ok none))
    ∧ ((resp.status = 200 →
        (updateUser (constT resp) uid payload).2 = .ok (some resp.data))
     ∧ (resp.status ≠ 200 →
        (updateUser (constT resp) uid payload).2 = .ok none))
    ∧ ((resp.status = 200 →
        (resetPassword (constT resp) uid rp).2 = .ok (some resp.data))
     ∧ (resp.status ≠ 200 →
        (resetPassword (constT resp) uid rp).2 = .ok none))
    ∧ ((resp.status = 200 →
        (createApiKey (constT resp) keyName).2 = .ok (some resp.data))
     ∧ (resp.status ≠ 200 →
        (createApiKey (constT resp) keyName).2 = .ok none))
    ∧ ((resp.status = 200 →
        (deleteApiKey (constT resp) akey).2 = .ok (some resp.data))
     ∧ (resp.status ≠ 200 →
        (deleteApiKey (constT resp) akey).2 = .ok none)) := by
  refine ⟨⟨?_, ?_⟩, ⟨?_, ?_⟩, ⟨?_, ?_⟩, ⟨?_, ?_⟩, ⟨?_, ?_⟩, ⟨?_, ?_⟩,
         ⟨?_, ?_⟩, ⟨?_, ?_⟩, ⟨?_, ?_⟩, ⟨?_, ?_⟩, ⟨?_, ?_⟩⟩
  · intro h
    simp [saveFlowToDatabase, constT, h]
  · intro h
    exact ⟨by simp [saveFlowToDatabase, constT, h],
      strContains_httpStatusError resp.status⟩
  · intro h
    simp [updateFlowInDatabase, constT, h]
  · intro h
    simp [updateFlowInDatabase, constT, h]
  · intro h
    simp [uploadFlowsToDatabase, constT, h]
  · intro h
    simp [uploadFlowsToDatabase, constT, h]
  · intro h
    simp [deleteFlowFromDatabase, constT, h]
  · intro h
    simp [deleteFlowFromDatabase, constT, h]
  · intro h
    simp [saveFlowStyleToDatabase, constT, h]
  · intro h
    simp [saveFlowStyleToDatabase, constT, h]
  · intro h
    simp [addUser, constT, h]
  · intro d h hd
    simp [addUser, constT, h, propAccess_of_jsField hd, jsErrMessage,
      jsToDisplayString]
  · intro h
    simp [deleteUser, constT, h]
  · intro h
    simp [deleteUser, constT, h]
  · intro h
    simp [updateUser, constT, h]
  · intro h
    simp [updateUser, constT, h]
  · intro h
    simp [resetPassword, constT, h]
  · intro h
    simp [resetPassword, constT, h]
  · intro h
    simp [createApiKey, constT, h]
  · intro h
    simp [createApiKey, constT, h]
  · intro h
    simp [deleteApiKey, constT, h]
  · intro h
    simp [deleteApiKey, constT, h]

/-- Witness for the amended C1: a 201 create-flow returns the body, a
500 delete-api-key resolves with undefined. -/
theorem c1_status_code_policy_witness :
    (saveFlowToDatabase (constT ⟨201, .str "B"⟩) c3Flow).2
      = .ok (.str "B")
    ∧ (deleteApiKey (constT ⟨500, .null⟩) "k").2 = .ok none := by
  refine ⟨?_, ?_⟩
  · exact (c1_status_code_policy ⟨201, .str "B"⟩ c3Flow .null .null .null
      .null .null "f" "u" "k" "n").1.1 rfl
  · exact (c1_status_code_policy ⟨500, .null⟩ c3Flow .null .null .null
      .null .null "f" "u" "k" "n").2.2.2.2.2.2.2.2.2.2.2 (by decide)

/-! ## getExamples lemmas and claim -/

/-- The body a settled follow-up request contributed (total helper for
stating the result of the fan-out). -/
def respData : Except JSError Response → JValue
  | .ok r => r.data
  | .error _ => .null

lemma filterJsonFiles_eq (files : List JValue)
    (hwf : ∀ f ∈ files, ∃ s, jsField f "name" = some (JValue.str s)) :
    filterJsonFiles files = .ok (files.filter nameEndsJson) := by
  induction files with
  | nil => rfl
  | cons f rest ih =>
    obtain ⟨s, hs⟩ := hwf f (List.mem_cons_self f rest)
    have hrest := ih fun g hg => hwf g (List.mem_cons_of_mem f hg)
    have hname : nameEndsJson f = jsEndsWith s ".json" := by
      simp [nameEndsJson, hs]
    simp only [filterJsonFiles, hs, hrest, List.filter_cons, hname]

lemma collectAll_map_ok (t : Transport) (rs : List Request)
    (h : ∀ r ∈ rs, ∃ resp, t r = .ok resp) :
    collectAll (rs.map t) = .ok (rs.map fun r => respData (t r)) := by
  induction rs with
  | nil => rfl
  | cons r rest ih =>
    obtain ⟨resp, hr⟩ := h r (List.mem_cons_self r rest)
    have hrest := ih fun x hx => h x (List.mem_cons_of_mem r hx)
    simp [collectAll, hr, hrest, respData]

lemma collectAll_map_err (t : Transport) (rs : List Request)
    (h : ∃ r ∈ rs, ∃ e, t r = .error e) :
    ∃ e, collectAll (rs.map t) = .error e := by
  induction rs with
  | nil => simp at h
  | cons r rest ih =>
    rcases h with ⟨x, hx, e, he⟩
    rcases List.mem_cons.mp hx with rfl | hx
    · exact ⟨e, by simp [collectAll, he]⟩
    · cases hr : t r with
      | error e2 => exact ⟨e2, by simp [collectAll, hr]⟩
      | ok resp =>
        obtain ⟨e3, h3⟩ := ih ⟨x, hx, e, he⟩
        exact ⟨e3, by simp [collectAll, hr, h3]⟩

/-- C2: getExamples, on a directory listing of entries with string
names of which M end in ".json", issues exactly 1 + M requests (the
listing plus one download per filtered entry, in listing order); when
every follow-up request succeeds it returns exactly the M decoded
bodies in the order of the filtered listing (the result is a function
of the transport's response per request, not of arrival order); when
any follow-up request fails the whole operation fails. -/
theorem c2_getExamples (t : Transport) (st : Nat) (files : List JValue)
    (hlist : t exListReq = .ok ⟨st, .arr files⟩)
    (hwf : ∀ f ∈ files, ∃ s, jsField f "name" = some (JValue.str s)) :
    (getExamples t).1 = exListReq :: (files.filter nameEndsJson).map dlReq
    ∧ (getExamples t).1.length = 1 + (files.filter nameEndsJson).length
    ∧ ((∀ r ∈ (files.filter nameEndsJson).map dlReq, ∃ resp, t r = .ok resp) →
        (getExamples t).2
          = .ok (((files.filter nameEndsJson).map dlReq).map
              fun r => respData (t r))
        ∧ ∃ ds, (getExamples t).2 = .ok ds
            ∧ ds.length = (files.filter nameEndsJson).length)
    ∧ ((∃ r ∈ (files.filter nameEndsJson).map dlReq, ∃ e, t r = .error e) →
        ∃ e, (getExamples t).2 = .error e) := by
  have hfilter := filterJsonFiles_eq files hwf
  have h1 : getExamples t
      = (exListReq :: (files.filter nameEndsJson).map dlReq,
         collectAll (((files.filter nameEndsJson).map dlReq).map t)) := by
    simp [getExamples, hlist, hfilter]
  refine ⟨by rw [h1], by rw [h1]; simp [Nat.add_comm], ?_, ?_⟩
  · intro hok
    have hco := collectAll_map_ok t _ hok
    exact ⟨by rw [h1]; exact hco, ⟨_, by rw [h1]; exact hco, by simp⟩⟩
  · intro herr
    obtain ⟨e, he⟩ := collectAll_map_err t _ herr
    exact ⟨e, by rw [h1]; exact he⟩

def fileA : JValue :=
  .obj [("name", .str "a.json"), ("download_url", .str "https://raw.example/a")]

def fileB : JValue :=
  .obj [("name", .str "readme.md"), ("download_url", .str "https://raw.example/b")]

def fileC : JValue :=
  .obj [("name", .str "c.json"), ("download_url", .str "https://raw.example/c")]

/-- A concrete transport serving a three-entry listing, of which two
entries are json files, and their two downloads. -/
def demoTransport : Transport := fun r =>
  if r.url = examplesURL then .ok ⟨200, .arr [fileA, fileB, fileC]⟩
  else if r.url = "https://raw.example/a" then .ok ⟨200, .str "A"⟩
  else if r.url = "https://raw.example/c" then .ok ⟨200, .str "C"⟩
  else .error ⟨"network"⟩

/-- Witness for C2: three listed entries, two json files, three
requests total and the two bodies in listing order. -/
theorem c2_getExamples_witness :
    (getExamples demoTransport).1.length = 1 + 2
    ∧ (getExamples demoTransport).2 = .ok [JValue.str "A", JValue.str "C"] := by
  have h := c2_getExamples demoTransport 200 [fileA, fileB, fileC] rfl
    (by
      intro f hf
      rcases List.mem_cons.mp hf with rfl | hf
      · exact ⟨"a.json", rfl⟩
      rcases List.mem_cons.mp hf with rfl | hf
      · exact ⟨"readme.md", rfl⟩
      rcases List.mem_cons.mp hf with rfl | hf
      · exact ⟨"c.json", rfl⟩
      · simp at hf)
  exact ⟨h.2.1.trans (by rfl), by rfl⟩

end LangflowAPI
